import Mathlib

/-!
Verification of the anvay frontend compliance-checking code.

The definitions below are a shallow embedding of the TypeScript sources:
* `checkCompliance` and its response transformation, from
  `src/anvay/src/services/api.ts`;
* the variant `checkCompliance` implementation (Codespaces build), from
  `src/unnamed/part_001`;
* the score-band helpers and the detected/missing field filters of
  `ComplianceResults`, from `src/anvay/src/components/ComplianceResults.tsx`;
* the file-type guards of `FileUpload`, from `src/unnamed/part_000`;
* the data types, from the TypeScript type declarations in
  `src/unnamed/part_002`.

JavaScript `x || d` on a number is modelled by `jsOrInt` (0 is falsy),
on a string by `jsOrStr` (the empty string is falsy); an array and a
well-formed status string are always truthy, so for those `x || d` is
`Option.getD`.  An absent (`undefined`) JSON field is `none`.  The JS
comparison `undefined >= n` is false, which `jsGE` encodes.
-/

namespace Anvay

/-- The `ComplianceField` interface of `src/unnamed/part_002`:
`{name, detected, value?, icon}`. -/
structure ComplianceField where
  name : String
  detected : Bool
  value : Option String
  icon : String
deriving DecidableEq, Repr

/-- The status union type `'pass' | 'partial' | 'fail'`. -/
inductive Status where
  | pass
  | partialStatus
  | fail
deriving DecidableEq, Repr

/-- The `ComplianceResult` interface of `src/unnamed/part_002`:
`{score, extractedText, fields, status}` — note it has no other field,
in particular no synthetic-provenance marker. -/
structure ComplianceResult where
  score : Int
  extractedText : String
  fields : List ComplianceField
  status : Status
deriving DecidableEq, Repr

/-- The `APIResponse` interface of `src/unnamed/part_002`:
`{success, data?, error?}`. -/
structure APIResponse where
  success : Bool
  data : Option ComplianceResult
  error : Option String
deriving DecidableEq, Repr

/-- The parsed JSON body `data = await response.json()` as accessed by
`checkCompliance`: the four properties it reads, each possibly absent. -/
structure ResponseBody where
  score : Option Int
  extracted_text : Option String
  fields : Option (List ComplianceField)
  status : Option Status
deriving DecidableEq, Repr

/-- JavaScript `x || d` for a possibly-absent number: `undefined` and `0`
are falsy. -/
def jsOrInt (x : Option Int) (d : Int) : Int :=
  match x with
  | some n => if n = 0 then d else n
  | none => d

/-- JavaScript `x || d` for a possibly-absent string: `undefined` and `""`
are falsy. -/
def jsOrStr (x : Option String) (d : String) : String :=
  match x with
  | some s => if s = "" then d else s
  | none => d

/-- JavaScript `x >= b` for a possibly-absent number: `undefined >= b` is
false. -/
def jsGE (x : Option Int) (b : Int) : Bool :=
  match x with
  | some n => decide (b ≤ n)
  | none => false

/-- The inline default field list of `checkCompliance`
(`src/anvay/src/services/api.ts`, the `data.fields ||` fallback literal). -/
def defaultFields : List ComplianceField :=
  [ ⟨"MRP", false, none, "rupee"⟩
  , ⟨"Net Quantity", false, none, "package"⟩
  , ⟨"Manufacturer", false, none, "building"⟩
  , ⟨"Country of Origin", false, none, "globe"⟩
  , ⟨"Manufacturing Date", false, none, "calendar"⟩ ]

/-- The status ternary of `checkCompliance`:
`data.score >= 60 ? 'pass' : data.score >= 40 ? 'partial' : 'fail'`. -/
def scoreStatus (s : Option Int) : Status :=
  if jsGE s 60 then .pass else if jsGE s 40 then .partialStatus else .fail

/-- The `complianceResult` object literal of `checkCompliance` in
`src/anvay/src/services/api.ts` (lines 25-36): the transformation of the
parsed response body into the frontend `ComplianceResult`. -/
def buildComplianceResult (data : ResponseBody) : ComplianceResult :=
  { score := jsOrInt data.score 0
  , extractedText := jsOrStr data.extracted_text ""
  , fields := data.fields.getD defaultFields
  , status := data.status.getD (scoreStatus data.score) }

/-- The possible outcomes of the network interaction inside
`checkCompliance`: a parsed body on the happy path, a non-ok HTTP status
(the code then throws `HTTP error! status: ...`), or a value thrown by
`fetch` or `response.json()` (an `Error` carrying a message, or a
non-`Error` value). -/
inductive FetchOutcome where
  | ok (body : ResponseBody)
  | httpError (status : Nat)
  | thrown (isError : Bool) (msg : String)
deriving DecidableEq, Repr

/-- `checkCompliance` of `src/anvay/src/services/api.ts`, as a function of
the network outcome.  The non-ok branch throws
`new Error('HTTP error! status: ' + status)` which the catch turns into
`{success: false, error: error.message}`; a thrown non-`Error` value
yields the message `'An error occurred'`. -/
def checkCompliance : FetchOutcome → APIResponse
  | .ok body => ⟨true, some (buildComplianceResult body), none⟩
  | .httpError st => ⟨false, none, some ("HTTP error! status: " ++ toString st)⟩
  | .thrown isErr msg => ⟨false, none, some (if isErr then msg else "An error occurred")⟩

/-- The `complianceResult` object literal of the variant `checkCompliance`
in `src/unnamed/part_001` (lines 33-44), embedded separately from its own
source text. -/
def buildComplianceResult2 (data : ResponseBody) : ComplianceResult :=
  { score := jsOrInt data.score 0
  , extractedText := jsOrStr data.extracted_text ""
  , fields := data.fields.getD defaultFields
  , status := data.status.getD (scoreStatus data.score) }

/-- Network outcomes for the variant `checkCompliance` of
`src/unnamed/part_001`: its non-ok branch additionally reads the response
body text into the error message. -/
inductive FetchOutcome2 where
  | ok (body : ResponseBody)
  | httpError (status : Nat) (errorText : String)
  | thrown (isError : Bool) (msg : String)
deriving DecidableEq, Repr

/-- The variant `checkCompliance` of `src/unnamed/part_001`. -/
def checkCompliance2 : FetchOutcome2 → APIResponse
  | .ok body => ⟨true, some (buildComplianceResult2 body), none⟩
  | .httpError st txt =>
      ⟨false, none,
        some ("HTTP error! status: " ++ toString st ++ ", message: " ++ txt)⟩
  | .thrown isErr msg => ⟨false, none, some (if isErr then msg else "An error occurred")⟩

/-- `getScoreColor` of `ComplianceResults.tsx`. -/
def getScoreColor (score : Int) : String :=
  if score ≥ 60 then "text-green-600 bg-green-100"
  else if score ≥ 40 then "text-yellow-600 bg-yellow-100"
  else "text-red-600 bg-red-100"

/-- The three icon components `getStatusIcon` can render. -/
inductive StatusIcon where
  | checkCircle
  | alertCircle
  | xCircle
deriving DecidableEq, Repr

/-- `getStatusIcon` of `ComplianceResults.tsx`, with the rendered JSX
element abstracted to the icon component it uses. -/
def getStatusIcon (score : Int) : StatusIcon :=
  if score ≥ 60 then .checkCircle
  else if score ≥ 40 then .alertCircle
  else .xCircle

/-- `const detectedFields = result.fields.filter(field => field.detected)`
in `ComplianceResults.tsx`. -/
def detectedFields (result : ComplianceResult) : List ComplianceField :=
  result.fields.filter (fun field => field.detected)

/-- `const missingFields = result.fields.filter(field => !field.detected)`
in `ComplianceResults.tsx`. -/
def missingFields (result : ComplianceResult) : List ComplianceField :=
  result.fields.filter (fun field => !field.detected)

/-- A browser `File` as far as the `FileUpload` component inspects it. -/
structure JSFile where
  type : String
  name : String
deriving DecidableEq, Repr

/-- The accepted MIME types of `FileUpload` (`src/unnamed/part_000`):
`['image/jpeg', 'image/png', 'image/webp']`. -/
def allowedImageTypes : List String :=
  ["image/jpeg", "image/png", "image/webp"]

/-- `handleFileChange` of `FileUpload`: takes `event.target.files` and
returns the file passed to `onFileSelect`, if any. -/
def handleFileChange (files : List JSFile) : Option JSFile :=
  match files.head? with
  | some file => if allowedImageTypes.contains file.type then some file else none
  | none => none

/-- `handleDrop` of `FileUpload`: takes `event.dataTransfer.files` and
returns the file passed to `onFileSelect`, if any. -/
def handleDrop (files : List JSFile) : Option JSFile :=
  match files.head? with
  | some file => if allowedImageTypes.contains file.type then some file else none
  | none => none

/-- C1: when the server response supplies no status, the status derived by
`checkCompliance` from a numeric score `s` is `pass` iff `s ≥ 60`,
`partial` iff `40 ≤ s < 60` and `fail` iff `s < 40`; and the score-band
classification of `ComplianceResults` (`getScoreColor`, `getStatusIcon`)
agrees with these same three bands. -/
theorem status_score_bands (s : Int) (et : Option String)
    (fs : Option (List ComplianceField)) :
    ((buildComplianceResult ⟨some s, et, fs, none⟩).status = .pass ↔ 60 ≤ s) ∧
    ((buildComplianceResult ⟨some s, et, fs, none⟩).status = .partialStatus ↔
      40 ≤ s ∧ s < 60) ∧
    ((buildComplianceResult ⟨some s, et, fs, none⟩).status = .fail ↔ s < 40) ∧
    (getScoreColor s = "text-green-600 bg-green-100" ↔ 60 ≤ s) ∧
    (getScoreColor s = "text-yellow-600 bg-yellow-100" ↔ 40 ≤ s ∧ s < 60) ∧
    (getScoreColor s = "text-red-600 bg-red-100" ↔ s < 40) ∧
    (getStatusIcon s = .checkCircle ↔ 60 ≤ s) ∧
    (getStatusIcon s = .alertCircle ↔ 40 ≤ s ∧ s < 60) ∧
    (getStatusIcon s = .xCircle ↔ s < 40) := by
  simp only [buildComplianceResult, Option.getD_none, scoreStatus, jsGE,
    getScoreColor, getStatusIcon]
  split_ifs with h1 h2 <;>
    refine ⟨?_, ?_, ?_, ?_, ?_, ?_, ?_, ?_, ?_⟩ <;>
    simp_all <;> omega

/-- C2 counterexample: a server response carrying `score = 0` together with
`status = "pass"` makes `checkCompliance` return status `pass`, although
the score-derived status of a zero score is `fail` — the status is not a
pure function of the score field, and the carried status overrides it. -/
theorem status_override_counterexample :
    checkCompliance (.ok ⟨some 0, none, none, some .pass⟩) =
      ⟨true, some (buildComplianceResult ⟨some 0, none, none, some .pass⟩), none⟩ ∧
    (buildComplianceResult ⟨some 0, none, none, some .pass⟩).status = .pass ∧
    (buildComplianceResult ⟨some 0, none, none, some .pass⟩).score = 0 ∧
    scoreStatus (some 0) = .fail ∧
    (buildComplianceResult ⟨some 0, none, none, some .pass⟩).status ≠
      scoreStatus (some (buildComplianceResult ⟨some 0, none, none, some .pass⟩).score) := by
  refine ⟨rfl, rfl, rfl, rfl, ?_⟩
  decide

/-- C2 amended: the status of the `ComplianceResult` built by
`checkCompliance` is a pure function of the response's `status` and
`score` properties only (the `extracted_text` and `fields` properties do
not influence it); a status carried by the response is returned verbatim
(an override path exists), and only when the response carries no status is
the status derived from the score via the fixed thresholds. -/
theorem status_override_amended (body : ResponseBody) (et : Option String)
    (fs : Option (List ComplianceField)) :
    (buildComplianceResult body).status =
      (match body.status with
       | some st => st
       | none => scoreStatus body.score) ∧
    (buildComplianceResult ⟨body.score, et, fs, body.status⟩).status =
      (buildComplianceResult body).status := by
  cases h : body.status <;> simp [buildComplianceResult, h]

/-- C3 counterexample: a server response whose fields are all
`detected = false` but whose `score` property is 100 yields a
`ComplianceResult` with every field undetected and score 100 (not 0) —
`checkCompliance` does not compute the score from the fields. -/
theorem score_not_from_fields_counterexample :
    ((buildComplianceResult ⟨some 100, none, some defaultFields, none⟩).fields.all
      (fun f => !f.detected)) = true ∧
    (buildComplianceResult ⟨some 100, none, some defaultFields, none⟩).score = 100 := by
  exact ⟨rfl, rfl⟩

/-- C3 amended: the score of the `ComplianceResult` built by
`checkCompliance` is taken directly from the response's `score` property
(`data.score || 0`, so 0 when that property is absent or zero), is
independent of the `fields` sequence, and involves no per-field weight
computation; in particular a response carrying no score yields score 0. -/
theorem score_from_response_amended (body : ResponseBody)
    (fs' : Option (List ComplianceField)) :
    (buildComplianceResult body).score = jsOrInt body.score 0 ∧
    (buildComplianceResult ⟨body.score, body.extracted_text, fs', body.status⟩).score =
      (buildComplianceResult body).score ∧
    (buildComplianceResult ⟨none, body.extracted_text, body.fields, body.status⟩).score
      = 0 := by
  exact ⟨rfl, rfl, rfl⟩

/-- C4 counterexample: when `fetch` (or `response.json()`) throws an
`Error` whose message is the empty string, `checkCompliance` returns
`success = false` with no data but propagates the empty message verbatim —
the returned error message is not always non-empty. -/
theorem error_message_empty_counterexample :
    checkCompliance (.thrown true "") = ⟨false, none, some ""⟩ ∧
    ("" : String).length = 0 := by
  exact ⟨rfl, rfl⟩

/-- C4 amended: whenever the HTTP response is not ok, or fetch or JSON
parsing throws, `checkCompliance` returns `success = false` with no data
and with an error message present, never a success result; the message is
non-empty in the HTTP-not-ok case (`HTTP error! status: ...`) and when the
thrown value is not an `Error` (`An error occurred`); a thrown `Error`'s
own message is propagated verbatim, so it is empty exactly when the
thrown message was. -/
theorem failure_paths_amended (st : Nat) (isErr : Bool) (msg : String) :
    checkCompliance (.httpError st) =
      ⟨false, none, some ("HTTP error! status: " ++ toString st)⟩ ∧
    ("HTTP error! status: " ++ toString st) ≠ "" ∧
    checkCompliance (.thrown isErr msg) =
      ⟨false, none, some (if isErr then msg else "An error occurred")⟩ ∧
    checkCompliance (.thrown false msg) = ⟨false, none, some "An error occurred"⟩ ∧
    ("An error occurred" : String) ≠ "" := by
  refine ⟨rfl, ?_, rfl, rfl, by decide⟩
  intro h
  have h2 : ("HTTP error! status: " ++ toString st).data = ([] : List Char) :=
    congrArg String.data h
  rw [String.data_append] at h2
  exact absurd (List.append_eq_nil.mp h2).1 (by decide)

/-- C5: a successfully parsed response body carrying none of `score`,
`extracted_text`, `fields` or `status` makes `checkCompliance` return
`success = true` with a `ComplianceResult` whose extracted text is empty,
score is 0, status is `fail`, and whose fields are exactly the five
configured fields in configuration order, each undetected with an absent
value — one entry per configured field, no duplicates, no omissions. -/
theorem empty_body_default_result :
    checkCompliance (.ok ⟨none, none, none, none⟩) =
      ⟨true,
        some ⟨0, "",
          [ ⟨"MRP", false, none, "rupee"⟩
          , ⟨"Net Quantity", false, none, "package"⟩
          , ⟨"Manufacturer", false, none, "building"⟩
          , ⟨"Country of Origin", false, none, "globe"⟩
          , ⟨"Manufacturing Date", false, none, "calendar"⟩ ],
          .fail⟩,
        none⟩ := by
  rfl

/-- C6: in both `FileUpload` handlers, a file reaches the `onFileSelect`
callback only when its declared MIME type is one of `image/jpeg`,
`image/png`, `image/webp`. -/
theorem fileUpload_mime_guard (files : List JSFile) (f : JSFile) :
    (handleFileChange files = some f → f.type ∈ allowedImageTypes) ∧
    (handleDrop files = some f → f.type ∈ allowedImageTypes) := by
  constructor <;> intro h <;>
    cases files with
    | nil => simp [handleFileChange, handleDrop] at h
    | cons a l =>
      simp [handleFileChange, handleDrop, List.head?] at h
      obtain ⟨h1, rfl⟩ := h
      exact h1

/-- C6 witness: a PNG file offered alone is selected by `handleFileChange`,
and its type is indeed among the allowed MIME types. -/
theorem fileUpload_mime_guard_witness :
    (⟨"image/png", "label.png"⟩ : JSFile).type ∈ allowedImageTypes :=
  (fileUpload_mime_guard [⟨"image/png", "label.png"⟩] ⟨"image/png", "label.png"⟩).1
    (by decide)

/-- C7 (code evaluated at the failing input): the `ComplianceResult` built
from an empty response body — the fallback/default field path — is
structurally identical to one built from a genuine response that carries
the very same score, text, fields and status; `ComplianceResult` has only
the four fields score, extractedText, fields, status, so no marker (such
as an `isSynthetic` flag) distinguishes the synthetic fallback analysis
from a real one. -/
theorem synthetic_fallback_indistinguishable :
    buildComplianceResult ⟨none, none, none, none⟩ =
      buildComplianceResult ⟨some 0, some "", some defaultFields, some .fail⟩ ∧
    checkCompliance (.ok ⟨none, none, none, none⟩) =
      checkCompliance (.ok ⟨some 0, some "", some defaultFields, some .fail⟩) := by
  exact ⟨rfl, rfl⟩

/-- C8: `checkCompliance` is total — it is a function on every network
outcome (ok body, non-ok HTTP status, thrown value) — and the returned
`APIResponse` has `success = true` exactly when it carries a data field. -/
theorem checkCompliance_total_success_iff (o : FetchOutcome) :
    (checkCompliance o).success = true ↔ ((checkCompliance o).data).isSome = true := by
  cases o <;> simp [checkCompliance]

/-- C9: the two `checkCompliance` implementations agree on the success
path: given the same successfully parsed response body, both construct the
identical `ComplianceResult` (same score, extractedText, fields, status)
and the identical success `APIResponse`. -/
theorem variant_success_path_equiv (body : ResponseBody) :
    buildComplianceResult2 body = buildComplianceResult body ∧
    checkCompliance2 (.ok body) = checkCompliance (.ok body) := by
  exact ⟨rfl, rfl⟩

/-- C10: the `detectedFields` and `missingFields` lists of
`ComplianceResults` partition `result.fields`: each is an order-preserving
sublist of the fields, their concatenation is a permutation of the fields,
their lengths sum to the number of fields, and every field of the result
belongs to exactly one of the two lists according to its `detected` flag. -/
theorem fields_partition (r : ComplianceResult) :
    List.Sublist (detectedFields r) r.fields ∧
    List.Sublist (missingFields r) r.fields ∧
    List.Perm (detectedFields r ++ missingFields r) r.fields ∧
    (detectedFields r).length + (missingFields r).length = r.fields.length ∧
    (∀ f, f ∈ r.fields → (f ∈ detectedFields r ↔ f.detected = true)) ∧
    (∀ f, f ∈ r.fields → (f ∈ missingFields r ↔ f.detected = false)) ∧
    (∀ f, ¬ (f ∈ detectedFields r ∧ f ∈ missingFields r)) := by
  unfold detectedFields missingFields
  have hperm :=
    List.filter_append_perm (fun field : ComplianceField => field.detected) r.fields
  refine ⟨List.filter_sublist r.fields, List.filter_sublist r.fields, ?_, ?_, ?_, ?_, ?_⟩
  · simpa using hperm
  · have hlen := hperm.length_eq
    rw [List.length_append] at hlen
    simpa using hlen
  · intro f hf
    simp [List.mem_filter, hf]
  · intro f hf
    simp [List.mem_filter, hf]
  · rintro f ⟨hd, hm⟩
    rw [List.mem_filter] at hd hm
    simp [hd.2] at hm

/-- C10 witness: the partition evaluated on a concrete two-field result —
the detected field belongs to the detected list. -/
theorem fields_partition_witness :
    (⟨"MRP", true, some "150", "rupee"⟩ : ComplianceField) ∈
      detectedFields
        ⟨20, "MRP: Rs. 150",
          [⟨"MRP", true, some "150", "rupee"⟩, ⟨"Net Quantity", false, none, "package"⟩],
          .fail⟩ :=
  ((fields_partition
      ⟨20, "MRP: Rs. 150",
        [⟨"MRP", true, some "150", "rupee"⟩, ⟨"Net Quantity", false, none, "package"⟩],
        .fail⟩).2.2.2.2.1
    ⟨"MRP", true, some "150", "rupee"⟩ (by decide)).mpr rfl

end Anvay
